import Mathlib

/- Verification of the strategy parameter derivation and prompt rendering
   subsystem of the nof1.ai trading agent.  JavaScript numbers are modelled
   as rationals (ℚ); `Math.ceil` becomes the integer ceiling; template
   literals become string concatenation with an explicit number formatter. -/

namespace Nof1

/-- Model of JavaScript `Math.ceil` on the rational model of JS numbers:
it returns the smallest integer greater than or equal to its argument,
as a number. -/
def mathCeil (q : ℚ) : ℚ := ((⌈q⌉ : ℤ) : ℚ)

/-- Model of JavaScript number-to-string conversion as used by the template
literals.  It is exact on the values the strategy modules interpolate:
integer values print as plain decimal integers, half-integer values such as
-7.5 print with one decimal digit.  Other rationals (which the strategy code
never produces) fall back to a fraction rendering. -/
def fmtNum (q : ℚ) : String :=
  if q.den = 1 then toString q.num
  else if q.den = 2 then
    let s := toString (q * 10).num
    s.dropRight 1 ++ "." ++ s.takeRight 1
  else toString q.num ++ "/" ++ toString q.den

/-- Auxiliary: does the character list `pat` occur at the head of the second
list?  Used to define substring containment. -/
def charsHasPre : List Char → List Char → Bool
  | [], _ => true
  | _ :: _, [] => false
  | a :: as, b :: bs => a == b && charsHasPre as bs

/-- Auxiliary: does the character list `pat` occur (contiguously) anywhere in
the second list? -/
def charsHasSub (pat : List Char) : List Char → Bool
  | [] => charsHasPre pat []
  | s@(_ :: rest) => charsHasPre pat s || charsHasSub pat rest

/-- Substring containment on strings: `strContains s sub` is true when `sub`
occurs contiguously inside `s`. -/
def strContains (s sub : String) : Bool := charsHasSub sub.data s.data

/-- A rational is integer-valued.  Used to state integrality of the derived
leverage bounds. -/
def IsIntVal (q : ℚ) : Prop := ∃ a : ℤ, q = (a : ℚ)

/-- leverageRecommend block of StrategyParams: per signal-strength tier, a
display string such as "13倍" (the code stores strings, not numbers). -/
structure LeverageRecommend where
  normal : String
  good : String
  strong : String

/-- positionSizeRecommend block: per tier, a display range string such as
"18-20%". -/
structure PositionSizeRecommend where
  normal : String
  good : String
  strong : String

/-- stopLoss block: a negative stop-loss percentage per leverage bucket. -/
structure StopLossLevels where
  low : ℚ
  mid : ℚ
  high : ℚ

/-- One trailing-stop level: once profit reaches `trigger` percent, the stop
floor rises to `stopAt` percent. -/
structure TrailLevel where
  trigger : ℚ
  stopAt : ℚ

/-- trailingStop block: three escalating levels. -/
structure TrailingStopLevels where
  level1 : TrailLevel
  level2 : TrailLevel
  level3 : TrailLevel

/-- One partial-take-profit stage: at `trigger` percent profit, close
`closePercent` percent of the remaining position. -/
structure TakeProfitStage where
  trigger : ℚ
  closePercent : ℚ

/-- partialTakeProfit block: three stages. -/
structure PartialTakeProfitStages where
  stage1 : TakeProfitStage
  stage2 : TakeProfitStage
  stage3 : TakeProfitStage

/-- One volatility regime's adjustment factors. -/
structure VolatilityFactors where
  leverageFactor : ℚ
  positionFactor : ℚ

/-- volatilityAdjustment block: factors per volatility regime. -/
structure VolatilityAdjustment where
  highVolatility : VolatilityFactors
  normalVolatility : VolatilityFactors
  lowVolatility : VolatilityFactors

/-- Modelled from the spec: the `StrategyParams` type is declared in
`src/strategies/types.ts`, which is not under src/.  Its field set is
reconstructed from the five record literals in the three strategy modules
(which populate every field) and from spec section 3. -/
structure StrategyParams where
  name : String
  description : String
  leverageMin : ℚ
  leverageMax : ℚ
  leverageRecommend : LeverageRecommend
  positionSizeMin : ℚ
  positionSizeMax : ℚ
  positionSizeRecommend : PositionSizeRecommend
  stopLoss : StopLossLevels
  trailingStop : TrailingStopLevels
  partialTakeProfit : PartialTakeProfitStages
  peakDrawdownProtection : ℚ
  volatilityAdjustment : VolatilityAdjustment
  entryCondition : String
  riskTolerance : String
  tradingStyle : String
  enableCodeLevelProtection : Bool

/-- Modelled from the spec: `StrategyPromptContext` is declared in
`src/strategies/types.ts`, which is not under src/.  The spec describes it
as an opaque caller-supplied execution context (current cycle length,
open-position count, and similar) consumed only by the renderers, which in
fact never read it. -/
structure StrategyPromptContext where
  cycleMinutes : ℚ
  openPositionCount : ℕ

/-- ultraShortLevMin from ultraShort.ts: 50% of the system maximum leverage,
rounded up, at least 3. -/
def ultraShortLevMin (maxLeverage : ℚ) : ℚ := max 3 (mathCeil (maxLeverage * 0.5))

/-- ultraShortLevMax from ultraShort.ts: 75% of the system maximum leverage,
rounded up, at least 5. -/
def ultraShortLevMax (maxLeverage : ℚ) : ℚ := max 5 (mathCeil (maxLeverage * 0.75))

/-- getUltraShortStrategy from ultraShort.ts. -/
def getUltraShortStrategy (maxLeverage : ℚ) : StrategyParams :=
  { name := "超短线",
    description := "极短周期快进快出，5分钟执行，适合高频交易",
    leverageMin := ultraShortLevMin maxLeverage,
    leverageMax := ultraShortLevMax maxLeverage,
    leverageRecommend :=
      { normal := fmtNum (ultraShortLevMin maxLeverage) ++ "倍",
        good := fmtNum (max 4 (mathCeil (maxLeverage * 0.625))) ++ "倍",
        strong := fmtNum (ultraShortLevMax maxLeverage) ++ "倍" },
    positionSizeMin := 18,
    positionSizeMax := 25,
    positionSizeRecommend :=
      { normal := "18-20%", good := "20-23%", strong := "23-25%" },
    stopLoss := { low := -2.5, mid := -2, high := -1.5 },
    trailingStop :=
      { level1 := { trigger := 4, stopAt := 1.5 },
        level2 := { trigger := 8, stopAt := 4 },
        level3 := { trigger := 15, stopAt := 8 } },
    partialTakeProfit :=
      { stage1 := { trigger := 15, closePercent := 50 },
        stage2 := { trigger := 25, closePercent := 50 },
        stage3 := { trigger := 35, closePercent := 100 } },
    peakDrawdownProtection := 20,
    volatilityAdjustment :=
      { highVolatility := { leverageFactor := 0.7, positionFactor := 0.8 },
        normalVolatility := { leverageFactor := 1.0, positionFactor := 1.0 },
        lowVolatility := { leverageFactor := 1.1, positionFactor := 1.0 } },
    entryCondition := "至少2个时间框架信号一致，优先1-5分钟级别",
    riskTolerance := "单笔交易风险控制在18-25%之间，快进快出",
    tradingStyle := "超短线交易，5分钟执行周期，快速捕捉短期波动，严格执行2%周期锁利规则和30分钟盈利平仓规则",
    enableCodeLevelProtection := false }

/-- generateUltraShortPrompt from ultraShort.ts: a fixed template that reads
neither `params` nor `context`. -/
def generateUltraShortPrompt (params : StrategyParams) (context : StrategyPromptContext) : String :=
  "
**目标月回报**：20-30%起步
**盈亏比追求**：≥2:1（让盈利充分奔跑，快速止损劣势交易）

【行情识别与应对 - 超短线策略】

超短线策略注重快速捕捉短期波动

单边行情处理：
- 入场条件：至少1个长周期（30m或1h）+ 2个中周期（5m、15m）方向一致
- 仓位配置：标准仓位
- 杠杆选择：根据信号强度选择

震荡行情处理：
- 谨慎观望
- 降低仓位至最小
- 使用最低杠杆

【超短线特别规则】
- 周期锁利规则：每个周期内，盈利>2%且<4%时，立即平仓锁定利润
- 30分钟规则：持仓超过30分钟且盈利>手续费成本时，如未达移动止盈线，执行保守平仓
- 快速捕捉短期波动，严格执行锁利规则
"

/-- conservativeLevMin from conservative.ts: 30% of the system maximum
leverage, rounded up, at least 1. -/
def conservativeLevMin (maxLeverage : ℚ) : ℚ := max 1 (mathCeil (maxLeverage * 0.3))

/-- conservativeLevMax from conservative.ts: 60% of the system maximum
leverage, rounded up, at least 2. -/
def conservativeLevMax (maxLeverage : ℚ) : ℚ := max 2 (mathCeil (maxLeverage * 0.6))

/-- conservativeLevNormal from conservative.ts. -/
def conservativeLevNormal (maxLeverage : ℚ) : ℚ := conservativeLevMin maxLeverage

/-- conservativeLevGood from conservative.ts. -/
def conservativeLevGood (maxLeverage : ℚ) : ℚ :=
  mathCeil ((conservativeLevMin maxLeverage + conservativeLevMax maxLeverage) / 2)

/-- conservativeLevStrong from conservative.ts. -/
def conservativeLevStrong (maxLeverage : ℚ) : ℚ := conservativeLevMax maxLeverage

/-- getConservativeStrategy from conservative.ts. -/
def getConservativeStrategy (maxLeverage : ℚ) : StrategyParams :=
  { name := "稳健",
    description := "低风险低杠杆，严格入场条件，适合保守投资者",
    leverageMin := conservativeLevMin maxLeverage,
    leverageMax := conservativeLevMax maxLeverage,
    leverageRecommend :=
      { normal := fmtNum (conservativeLevNormal maxLeverage) ++ "倍",
        good := fmtNum (conservativeLevGood maxLeverage) ++ "倍",
        strong := fmtNum (conservativeLevStrong maxLeverage) ++ "倍" },
    positionSizeMin := 15,
    positionSizeMax := 22,
    positionSizeRecommend :=
      { normal := "15-17%", good := "17-20%", strong := "20-22%" },
    stopLoss := { low := -3.5, mid := -3, high := -2.5 },
    trailingStop :=
      { level1 := { trigger := 6, stopAt := 2 },
        level2 := { trigger := 12, stopAt := 6 },
        level3 := { trigger := 20, stopAt := 12 } },
    partialTakeProfit :=
      { stage1 := { trigger := 20, closePercent := 50 },
        stage2 := { trigger := 30, closePercent := 50 },
        stage3 := { trigger := 40, closePercent := 100 } },
    peakDrawdownProtection := 25,
    volatilityAdjustment :=
      { highVolatility := { leverageFactor := 0.6, positionFactor := 0.7 },
        normalVolatility := { leverageFactor := 1.0, positionFactor := 1.0 },
        lowVolatility := { leverageFactor := 1.0, positionFactor := 1.0 } },
    entryCondition := "至少3个关键时间框架信号一致，4个或更多更佳",
    riskTolerance := "单笔交易风险控制在15-22%之间，严格控制回撤",
    tradingStyle := "谨慎交易，宁可错过机会也不冒险，优先保护本金",
    enableCodeLevelProtection := false }

/-- generateConservativePrompt from conservative.ts: a fixed template that
reads neither `params` nor `context`. -/
def generateConservativePrompt (params : StrategyParams) (context : StrategyPromptContext) : String :=
  "
**目标月回报**：10-20%起步
**盈亏比追求**：≥2:1（让盈利充分奔跑，快速止损劣势交易）

【行情识别与应对 - 稳健策略】

稳健策略更加谨慎，只在高确定性机会时入场

单边行情处理：
- 入场条件：至少1个长周期（30m或1h）+ 2个中周期（5m、15m）方向一致
- 仓位配置：标准仓位
- 杠杆选择：根据信号强度选择，偏保守

震荡行情处理：
- 入场条件：至少3-4个时间框架一致，且长周期无震荡特征
- 仓位配置：降低仓位至最小
- 杠杆选择：使用最低杠杆
- 交易频率：尽量观望

【稳健策略总结】
- 核心原则：时间框架分层使用，长周期判断趋势，中周期验证信号，短周期入场
- 在单边行情积极把握，让利润充分奔跑（长周期趋势明确）
- 在震荡行情谨慎防守，避免频繁交易（长周期震荡混乱）
- 正确识别行情类型，调整交易策略（优先看长周期）
- 耐心等待高质量机会，不要强行交易（长周期无趋势时观望）
- 宁可错过机会，也不冒险
"

/-- balancedLevMin from conservative.ts (balanced profile): 60% of the system
maximum leverage, rounded up, at least 2. -/
def balancedLevMin (maxLeverage : ℚ) : ℚ := max 2 (mathCeil (maxLeverage * 0.6))

/-- balancedLevMax from conservative.ts (balanced profile): 85% of the system
maximum leverage, rounded up, at least 3. -/
def balancedLevMax (maxLeverage : ℚ) : ℚ := max 3 (mathCeil (maxLeverage * 0.85))

/-- balancedLevNormal from conservative.ts (balanced profile). -/
def balancedLevNormal (maxLeverage : ℚ) : ℚ := balancedLevMin maxLeverage

/-- balancedLevGood from conservative.ts (balanced profile). -/
def balancedLevGood (maxLeverage : ℚ) : ℚ :=
  mathCeil ((balancedLevMin maxLeverage + balancedLevMax maxLeverage) / 2)

/-- balancedLevStrong from conservative.ts (balanced profile). -/
def balancedLevStrong (maxLeverage : ℚ) : ℚ := balancedLevMax maxLeverage

/-- getBalancedStrategy from conservative.ts. -/
def getBalancedStrategy (maxLeverage : ℚ) : StrategyParams :=
  { name := "平衡",
    description := "中等风险杠杆，合理入场条件，适合大多数投资者",
    leverageMin := balancedLevMin maxLeverage,
    leverageMax := balancedLevMax maxLeverage,
    leverageRecommend :=
      { normal := fmtNum (balancedLevNormal maxLeverage) ++ "倍",
        good := fmtNum (balancedLevGood maxLeverage) ++ "倍",
        strong := fmtNum (balancedLevStrong maxLeverage) ++ "倍" },
    positionSizeMin := 20,
    positionSizeMax := 27,
    positionSizeRecommend :=
      { normal := "20-23%", good := "23-25%", strong := "25-27%" },
    stopLoss := { low := -3, mid := -2.5, high := -2 },
    trailingStop :=
      { level1 := { trigger := 8, stopAt := 3 },
        level2 := { trigger := 15, stopAt := 8 },
        level3 := { trigger := 25, stopAt := 15 } },
    partialTakeProfit :=
      { stage1 := { trigger := 30, closePercent := 50 },
        stage2 := { trigger := 40, closePercent := 50 },
        stage3 := { trigger := 50, closePercent := 100 } },
    peakDrawdownProtection := 30,
    volatilityAdjustment :=
      { highVolatility := { leverageFactor := 0.7, positionFactor := 0.8 },
        normalVolatility := { leverageFactor := 1.0, positionFactor := 1.0 },
        lowVolatility := { leverageFactor := 1.1, positionFactor := 1.0 } },
    entryCondition := "至少2个关键时间框架信号一致，3个或更多更佳",
    riskTolerance := "单笔交易风险控制在20-27%之间，平衡风险与收益",
    tradingStyle := "在风险可控前提下积极把握机会，追求稳健增长",
    enableCodeLevelProtection := false }

/-- generateBalancedPrompt from conservative.ts: a fixed template that reads
neither `params` nor `context`. -/
def generateBalancedPrompt (params : StrategyParams) (context : StrategyPromptContext) : String :=
  "
**目标月回报**：20-40%起步
**盈亏比追求**：≥2:1（让盈利充分奔跑，快速止损劣势交易）

【行情识别与应对 - 平衡策略】

平衡策略在单边行情积极参与，在震荡行情谨慎防守

单边行情处理：
- 入场条件：至少1个长周期（30m或1h）+ 2个中周期（5m、15m）方向一致
- 仓位配置：标准仓位
- 杠杆选择：根据信号强度选择

震荡行情处理：
- 入场条件：至少3-4个时间框架一致，且长周期无震荡特征
- 仓位配置：降低仓位至最小
- 杠杆选择：使用最低杠杆

【平衡策略总结】
- 核心原则：时间框架分层使用：长周期判断趋势，中周期验证信号，短周期入场
- 在单边行情积极把握，让利润充分奔跑（长周期趋势明确）
- 在震荡行情谨慎防守，避免频繁交易（长周期震荡混乱）
- 正确识别行情类型，调整交易策略（优先看长周期）
- 耐心等待高质量机会，不要强行交易（长周期无趋势时观望）
"

/-- aggressiveLevMin from aggressive.ts: 85% of the system maximum leverage,
rounded up, at least 3. -/
def aggressiveLevMin (maxLeverage : ℚ) : ℚ := max 3 (mathCeil (maxLeverage * 0.85))

/-- aggressiveLevMax from aggressive.ts: exactly the system maximum leverage,
with no scaling and no floor. -/
def aggressiveLevMax (maxLeverage : ℚ) : ℚ := maxLeverage

/-- aggressiveLevNormal from aggressive.ts. -/
def aggressiveLevNormal (maxLeverage : ℚ) : ℚ := aggressiveLevMin maxLeverage

/-- aggressiveLevGood from aggressive.ts. -/
def aggressiveLevGood (maxLeverage : ℚ) : ℚ :=
  mathCeil ((aggressiveLevMin maxLeverage + aggressiveLevMax maxLeverage) / 2)

/-- aggressiveLevStrong from aggressive.ts. -/
def aggressiveLevStrong (maxLeverage : ℚ) : ℚ := aggressiveLevMax maxLeverage

/-- getAggressiveStrategy from aggressive.ts. -/
def getAggressiveStrategy (maxLeverage : ℚ) : StrategyParams :=
  { name := "激进",
    description := "高风险高杠杆，宽松入场条件，适合激进投资者",
    leverageMin := aggressiveLevMin maxLeverage,
    leverageMax := aggressiveLevMax maxLeverage,
    leverageRecommend :=
      { normal := fmtNum (aggressiveLevNormal maxLeverage) ++ "倍",
        good := fmtNum (aggressiveLevGood maxLeverage) ++ "倍",
        strong := fmtNum (aggressiveLevStrong maxLeverage) ++ "倍" },
    positionSizeMin := 25,
    positionSizeMax := 32,
    positionSizeRecommend :=
      { normal := "25-28%", good := "28-30%", strong := "30-32%" },
    stopLoss := { low := -6, mid := -8, high := -10 },
    trailingStop :=
      { level1 := { trigger := 10, stopAt := 4 },
        level2 := { trigger := 18, stopAt := 10 },
        level3 := { trigger := 30, stopAt := 18 } },
    partialTakeProfit :=
      { stage1 := { trigger := 25, closePercent := 40 },
        stage2 := { trigger := 40, closePercent := 60 },
        stage3 := { trigger := 60, closePercent := 100 } },
    peakDrawdownProtection := 25,
    volatilityAdjustment :=
      { highVolatility := { leverageFactor := 0.8, positionFactor := 0.85 },
        normalVolatility := { leverageFactor := 1.0, positionFactor := 1.0 },
        lowVolatility := { leverageFactor := 1.2, positionFactor := 1.1 } },
    entryCondition := "至少2个关键时间框架信号一致即可入场",
    riskTolerance := "单笔交易风险可达25-32%，追求高收益",
    tradingStyle := "积极进取，快速捕捉市场机会，追求最大化收益",
    enableCodeLevelProtection := true }

/-- generateAggressivePrompt from aggressive.ts: a fixed template that reads
neither `params` nor `context`; in particular it interpolates none of the
stop-loss or trailing-stop thresholds and contains no statement about the
automated monitor. -/
def generateAggressivePrompt (params : StrategyParams) (context : StrategyPromptContext) : String :=
  "
**目标月回报**：30-50%（通过频繁的小确定性盈利累积）
**盈亏比追求**：≥2:1（激进策略注重频繁获利，盈亏比适度降低，通过高胜率补偿）

【行情识别与应对 - 激进策略核心】

激进策略的核心矛盾：在单边行情积极进攻，在震荡行情严格防守

单边行情处理：
- 入场条件：【必须】至少1个长周期（30m或1h）趋势明确 + 至少1个中周期（5m或15m）与长周期方向一致
- 仓位配置：使用较大仓位（28-32%），充分把握趋势
- 杠杆选择：积极使用较高杠杆（22-25倍），抓住机会
- 关键提醒：单边行情是激进策略的核心盈利来源，但必须由长周期确认！

震荡行情处理：
- 【强制规则】震荡行情禁止频繁开仓，这是亏损的主要来源！
- 入场条件：【必须】至少1个长周期（30m或1h）+ 2个中周期（5m、15m）完全一致
- 仓位配置：大幅降低仓位（15-20%），避免震荡止损
- 杠杆选择：降低杠杆（15-18倍），控制风险
- 关键警告：震荡行情频繁交易=频繁止损+手续费亏损，必须克制！

【激进策略特别提醒】
- 核心原则：长周期确认趋势，中周期验证信号，短周期寻找入场点
- 单边行情全力进攻 = 长周期趋势明确 + 大仓位 + 高杠杆 + 积极加仓
- 震荡行情严格防守 = 长周期震荡 + 小仓位 + 低杠杆 + 高标准
- 成功要诀：在对的行情做对的事（单边进攻、震荡防守）
- 失败根源：仅凭短周期（1m、3m）就开仓 = 频繁止损
- 铁律：长周期（30m、1h）没有明确趋势时，绝不能因为短周期信号就开仓！
"

/-- getSwingTrendStrategy from aggressive.ts. -/
def getSwingTrendStrategy (maxLeverage : ℚ) : StrategyParams :=
  { name := "波段趋势",
    description := "中长线波段交易，20分钟执行，捕捉中期趋势，适合稳健成长",
    leverageMin := max 2 (mathCeil (maxLeverage * 0.2)),
    leverageMax := max 5 (mathCeil (maxLeverage * 0.5)),
    leverageRecommend :=
      { normal := fmtNum (max 2 (mathCeil (maxLeverage * 0.2))) ++ "倍",
        good := fmtNum (max 3 (mathCeil (maxLeverage * 0.35))) ++ "倍",
        strong := fmtNum (max 5 (mathCeil (maxLeverage * 0.5))) ++ "倍" },
    positionSizeMin := 20,
    positionSizeMax := 35,
    positionSizeRecommend :=
      { normal := "20-25%", good := "25-30%", strong := "30-35%" },
    stopLoss := { low := -9, mid := -7.5, high := -5.5 },
    trailingStop :=
      { level1 := { trigger := 15, stopAt := 8 },
        level2 := { trigger := 30, stopAt := 20 },
        level3 := { trigger := 50, stopAt := 35 } },
    partialTakeProfit :=
      { stage1 := { trigger := 50, closePercent := 40 },
        stage2 := { trigger := 80, closePercent := 60 },
        stage3 := { trigger := 120, closePercent := 100 } },
    peakDrawdownProtection := 35,
    volatilityAdjustment :=
      { highVolatility := { leverageFactor := 0.5, positionFactor := 0.6 },
        normalVolatility := { leverageFactor := 1.0, positionFactor := 1.0 },
        lowVolatility := { leverageFactor := 1.2, positionFactor := 1.1 } },
    entryCondition := "必须1分钟、3分钟、5分钟、15分钟这4个时间框架信号全部强烈一致，且关键指标共振（MACD、RSI、EMA方向一致）",
    riskTolerance := "单笔交易风险控制在20-35%之间，注重趋势质量而非交易频率",
    tradingStyle := "波段趋势交易，20分钟执行周期，耐心等待高质量趋势信号，持仓时间可达数天，让利润充分奔跑",
    enableCodeLevelProtection := true }

/-- The 33% cut point between leverageMin and leverageMax, rounded up: the
expression `Math.ceil(params.leverageMin + (params.leverageMax -
params.leverageMin) * 0.33)` that generateSwingTrendPrompt interpolates
inline. -/
def swingStopCutLow (params : StrategyParams) : ℚ :=
  mathCeil (params.leverageMin + (params.leverageMax - params.leverageMin) * 0.33)

/-- The 67% cut point between leverageMin and leverageMax, rounded up: the
expression `Math.ceil(params.leverageMin + (params.leverageMax -
params.leverageMin) * 0.67)` that generateSwingTrendPrompt interpolates
inline. -/
def swingStopCutMid (params : StrategyParams) : ℚ :=
  mathCeil (params.leverageMin + (params.leverageMax - params.leverageMin) * 0.67)

/-- generateSwingTrendPrompt from aggressive.ts: interpolates the derived
leverage bucket boundaries, the stop-loss thresholds and the trailing-stop
levels of the supplied record, and states that the automated monitor (not
the AI) closes positions.  It never reads `context`. -/
def generateSwingTrendPrompt (params : StrategyParams) (context : StrategyPromptContext) : String :=
  "
**目标月回报**：20-30%起步
**盈亏比追求**：≥2:1（让盈利充分奔跑，快速止损劣势交易）

【行情识别与应对 - 波段趋势策略】

波段趋势策略注重捕捉中期趋势，持仓时间可达数天

【特殊说明 - 自动监控保护】
本策略启用了自动监控止损和移动止盈（每10秒检查）：
- AI只负责开仓和市场分析
- 平仓完全由自动监控执行
- AI禁止主动调用 closePosition

自动监控止损规则（根据杠杆倍数）：
- " ++ fmtNum params.leverageMin ++ "-" ++ fmtNum (swingStopCutLow params) ++ "倍杠杆：亏损 " ++ fmtNum params.stopLoss.low ++ "% 时止损
- " ++ fmtNum (swingStopCutLow params + 1) ++ "-" ++ fmtNum (swingStopCutMid params) ++ "倍杠杆：亏损 " ++ fmtNum params.stopLoss.mid ++ "% 时止损
- " ++ fmtNum (swingStopCutMid params + 1) ++ "倍以上杠杆：亏损 " ++ fmtNum params.stopLoss.high ++ "% 时止损

自动监控移动止盈规则（3级）：
- Level 1: 峰值达到 " ++ fmtNum params.trailingStop.level1.trigger ++ "% 时，回落至 " ++ fmtNum params.trailingStop.level1.stopAt ++ "% 平仓
- Level 2: 峰值达到 " ++ fmtNum params.trailingStop.level2.trigger ++ "% 时，回落至 " ++ fmtNum params.trailingStop.level2.stopAt ++ "% 平仓
- Level 3: 峰值达到 " ++ fmtNum params.trailingStop.level3.trigger ++ "% 时，回落至 " ++ fmtNum params.trailingStop.level3.stopAt ++ "% 平仓

【AI职责】
- 专注于市场分析和开仓决策
- 监控持仓状态并在报告中说明
- 分析技术指标和趋势健康度
- 禁止主动执行平仓操作
- 让自动监控自动处理所有平仓逻辑

单边行情处理：
- 入场条件：必须1分钟、3分钟、5分钟、15分钟这4个时间框架信号全部强烈一致
- 仓位配置：标准仓位（20-35%）
- 杠杆选择：低杠杆（2-5倍）
- 耐心持仓，让利润充分奔跑

震荡行情处理：
- 严格防守
- 提高入场标准
- 降低仓位和杠杆

【波段趋势策略总结】
- 核心原则：耐心等待高质量趋势信号，持仓时间可达数天
- 20分钟执行周期，注重趋势质量而非交易频率
- 自动监控保护利润，AI专注于开仓和分析
- 让利润充分奔跑，不要轻易平仓
"

/-- The five risk profiles of the repository. -/
inductive Profile
  | ultraShort
  | conservative
  | balanced
  | aggressive
  | swingTrend
deriving DecidableEq

/-- Dispatch a profile to its derivation function. -/
def getStrategy : Profile → ℚ → StrategyParams
  | .ultraShort, L => getUltraShortStrategy L
  | .conservative, L => getConservativeStrategy L
  | .balanced, L => getBalancedStrategy L
  | .aggressive, L => getAggressiveStrategy L
  | .swingTrend, L => getSwingTrendStrategy L

/-- The numeric leverage value interpolated into the normal-tier recommend
string of each profile (the expression inside the template literal). -/
def levRecNormal : Profile → ℚ → ℚ
  | .ultraShort, L => ultraShortLevMin L
  | .conservative, L => conservativeLevNormal L
  | .balanced, L => balancedLevNormal L
  | .aggressive, L => aggressiveLevNormal L
  | .swingTrend, L => max 2 (mathCeil (L * 0.2))

/-- The numeric leverage value interpolated into the good-tier recommend
string of each profile. -/
def levRecGood : Profile → ℚ → ℚ
  | .ultraShort, L => max 4 (mathCeil (L * 0.625))
  | .conservative, L => conservativeLevGood L
  | .balanced, L => balancedLevGood L
  | .aggressive, L => aggressiveLevGood L
  | .swingTrend, L => max 3 (mathCeil (L * 0.35))

/-- The numeric leverage value interpolated into the strong-tier recommend
string of each profile. -/
def levRecStrong : Profile → ℚ → ℚ
  | .ultraShort, L => ultraShortLevMax L
  | .conservative, L => conservativeLevStrong L
  | .balanced, L => balancedLevStrong L
  | .aggressive, L => aggressiveLevStrong L
  | .swingTrend, L => max 5 (mathCeil (L * 0.5))

/-- The scaling fraction applied to systemMaxLeverage for leverageMin, per
profile. -/
def profileLowFraction : Profile → ℚ
  | .ultraShort => 0.5
  | .conservative => 0.3
  | .balanced => 0.6
  | .aggressive => 0.85
  | .swingTrend => 0.2

/-- The scaling fraction applied to systemMaxLeverage for leverageMax, per
profile.  The aggressive profile applies no scaling (leverageMax is the
input itself); its entry here is 1 and is never used by the theorems. -/
def profileHighFraction : Profile → ℚ
  | .ultraShort => 0.75
  | .conservative => 0.6
  | .balanced => 0.85
  | .aggressive => 1
  | .swingTrend => 0.5

/-- The absolute floor on leverageMin, per profile. -/
def profileLevMinFloor : Profile → ℚ
  | .ultraShort => 3
  | .conservative => 1
  | .balanced => 2
  | .aggressive => 3
  | .swingTrend => 2

/-- The absolute floor on leverageMax, per profile.  The aggressive profile
has no floor in the code (leverageMax is the input itself); its entry here
is 1, which makes the bound `leverageMax ≤ max systemMaxLeverage floor`
trivially faithful. -/
def profileLevMaxFloor : Profile → ℚ
  | .ultraShort => 5
  | .conservative => 2
  | .balanced => 3
  | .aggressive => 1
  | .swingTrend => 5

/-- The set of systemMaxLeverage values quantified over by the spec's first
testable property. -/
def c1LeverageSet : List ℚ := [1, 2, 25, 100, 1000000]

/-- Modelled from the spec: the `ConfigurationError` raised by the Profile
Registry on lookup of an unknown identifier is not under src/; the spec says
it names the unrecognized identifier. -/
structure ConfigurationError where
  unknownProfileId : String
deriving DecidableEq

/-- The fixed closed set of profile identifiers of the Registry. -/
def knownProfileIds : List String :=
  ["ultra-short", "conservative", "balanced", "aggressive", "swing-trend"]

/-- Modelled from the spec: the Profile Registry entry point
`deriveStrategy(profileId, systemMaxLeverage)` is not under src/ (only the
five derivation functions it dispatches to are).  Per spec sections 4.4 and
6 it selects the derivation function bound to the identifier and fails with
a `ConfigurationError` naming the identifier when it is unknown; failure is
modelled with `Except`, so no partial record is ever produced. -/
def deriveStrategy (profileId : String) (systemMaxLeverage : ℚ) :
    Except ConfigurationError StrategyParams :=
  if profileId = "ultra-short" then Except.ok (getUltraShortStrategy systemMaxLeverage)
  else if profileId = "conservative" then Except.ok (getConservativeStrategy systemMaxLeverage)
  else if profileId = "balanced" then Except.ok (getBalancedStrategy systemMaxLeverage)
  else if profileId = "aggressive" then Except.ok (getAggressiveStrategy systemMaxLeverage)
  else if profileId = "swing-trend" then Except.ok (getSwingTrendStrategy systemMaxLeverage)
  else Except.error { unknownProfileId := profileId }

/-- A concrete runtime context used by the closed evaluation theorems (its
contents are irrelevant: no renderer reads it). -/
def sampleContext : StrategyPromptContext :=
  { cycleMinutes := 20, openPositionCount := 0 }

/-! Helper lemmas about the ceiling model. -/

lemma le_mathCeil (q : ℚ) : q ≤ mathCeil q := by
  unfold mathCeil; exact Int.le_ceil q

lemma mathCeil_le_int (q : ℚ) (n : ℤ) (h : q ≤ (n : ℚ)) : mathCeil q ≤ (n : ℚ) := by
  unfold mathCeil; exact_mod_cast Int.ceil_le.mpr h

lemma mathCeil_mono (a b : ℚ) (h : a ≤ b) : mathCeil a ≤ mathCeil b := by
  unfold mathCeil; exact_mod_cast Int.ceil_mono h

lemma mathCeil_eval (q : ℚ) (n : ℤ) (h1 : (n : ℚ) - 1 < q) (h2 : q ≤ (n : ℚ)) :
    mathCeil q = (n : ℚ) := by
  unfold mathCeil
  exact_mod_cast congrArg (fun z : ℤ => (z : ℚ)) (Int.ceil_eq_iff.mpr ⟨h1, h2⟩)

lemma maxCeil_eval (f q : ℚ) (n : ℤ) (hfn : f ≤ (n : ℚ)) (h1 : (n : ℚ) - 1 < q)
    (h2 : q ≤ (n : ℚ)) : max f (mathCeil q) = (n : ℚ) := by
  rw [mathCeil_eval q n h1 h2]; exact max_eq_right hfn

lemma maxCeil_floor_eval (f q : ℚ) (n : ℤ) (hfn : (n : ℚ) ≤ f) (h1 : (n : ℚ) - 1 < q)
    (h2 : q ≤ (n : ℚ)) : max f (mathCeil q) = f := by
  rw [mathCeil_eval q n h1 h2]; exact max_eq_left hfn

lemma max_ceil_mono (f1 f2 q1 q2 : ℚ) (hf : f1 ≤ f2) (hq : q1 ≤ q2) :
    max f1 (mathCeil q1) ≤ max f2 (mathCeil q2) :=
  max_le_max hf (mathCeil_mono _ _ hq)

lemma isIntVal_maxCeil (f : ℚ) (hf : IsIntVal f) (q : ℚ) : IsIntVal (max f (mathCeil q)) := by
  obtain ⟨a, rfl⟩ := hf
  exact ⟨max a ⌈q⌉, by unfold mathCeil; norm_cast⟩

lemma avg_ceil_between (a b : ℚ) (hb : IsIntVal b) (h : a ≤ b) :
    a ≤ mathCeil ((a + b) / 2) ∧ mathCeil ((a + b) / 2) ≤ b := by
  obtain ⟨m, rfl⟩ := hb
  constructor
  · exact le_trans (by linarith) (le_mathCeil _)
  · exact mathCeil_le_int _ m (by linarith)

/-! General lemmas about the derived leverage bounds, shared by several
claims. -/

lemma one_le_levMin (pr : Profile) (L : ℚ) : 1 ≤ (getStrategy pr L).leverageMin := by
  cases pr <;>
    simp only [getStrategy, getUltraShortStrategy, getConservativeStrategy,
      getBalancedStrategy, getAggressiveStrategy, getSwingTrendStrategy,
      ultraShortLevMin, conservativeLevMin, balancedLevMin, aggressiveLevMin] <;>
    exact le_trans (by norm_num) (le_max_left _ _)

lemma levMinFloor_le (pr : Profile) (L : ℚ) :
    profileLevMinFloor pr ≤ (getStrategy pr L).leverageMin := by
  cases pr <;>
    simp only [getStrategy, getUltraShortStrategy, getConservativeStrategy,
      getBalancedStrategy, getAggressiveStrategy, getSwingTrendStrategy,
      ultraShortLevMin, conservativeLevMin, balancedLevMin, aggressiveLevMin,
      profileLevMinFloor] <;>
    exact le_max_left _ _

lemma levMin_int (pr : Profile) (L : ℚ) : IsIntVal ((getStrategy pr L).leverageMin) := by
  cases pr with
  | ultraShort =>
    simp only [getStrategy, getUltraShortStrategy, ultraShortLevMin]
    exact isIntVal_maxCeil 3 ⟨3, by norm_num⟩ _
  | conservative =>
    simp only [getStrategy, getConservativeStrategy, conservativeLevMin]
    exact isIntVal_maxCeil 1 ⟨1, by norm_num⟩ _
  | balanced =>
    simp only [getStrategy, getBalancedStrategy, balancedLevMin]
    exact isIntVal_maxCeil 2 ⟨2, by norm_num⟩ _
  | aggressive =>
    simp only [getStrategy, getAggressiveStrategy, aggressiveLevMin]
    exact isIntVal_maxCeil 3 ⟨3, by norm_num⟩ _
  | swingTrend =>
    simp only [getStrategy, getSwingTrendStrategy]
    exact isIntVal_maxCeil 2 ⟨2, by norm_num⟩ _

lemma levMax_int (pr : Profile) (L : ℚ) (hL : IsIntVal L) :
    IsIntVal ((getStrategy pr L).leverageMax) := by
  cases pr with
  | ultraShort =>
    simp only [getStrategy, getUltraShortStrategy, ultraShortLevMax]
    exact isIntVal_maxCeil 5 ⟨5, by norm_num⟩ _
  | conservative =>
    simp only [getStrategy, getConservativeStrategy, conservativeLevMax]
    exact isIntVal_maxCeil 2 ⟨2, by norm_num⟩ _
  | balanced =>
    simp only [getStrategy, getBalancedStrategy, balancedLevMax]
    exact isIntVal_maxCeil 3 ⟨3, by norm_num⟩ _
  | aggressive =>
    simp only [getStrategy, getAggressiveStrategy, aggressiveLevMax]
    exact hL
  | swingTrend =>
    simp only [getStrategy, getSwingTrendStrategy]
    exact isIntVal_maxCeil 5 ⟨5, by norm_num⟩ _

lemma levMax_le_max (pr : Profile) (L : ℚ) (h0 : 0 ≤ L) (hint : IsIntVal L) :
    (getStrategy pr L).leverageMax ≤ max L (profileLevMaxFloor pr) := by
  obtain ⟨n, rfl⟩ := hint
  cases pr with
  | ultraShort =>
    simp only [getStrategy, getUltraShortStrategy, ultraShortLevMax, profileLevMaxFloor]
    exact max_le (le_max_right _ _)
      (le_trans (mathCeil_le_int _ n (mul_le_of_le_one_right h0 (by norm_num))) (le_max_left _ _))
  | conservative =>
    simp only [getStrategy, getConservativeStrategy, conservativeLevMax, profileLevMaxFloor]
    exact max_le (le_max_right _ _)
      (le_trans (mathCeil_le_int _ n (mul_le_of_le_one_right h0 (by norm_num))) (le_max_left _ _))
  | balanced =>
    simp only [getStrategy, getBalancedStrategy, balancedLevMax, profileLevMaxFloor]
    exact max_le (le_max_right _ _)
      (le_trans (mathCeil_le_int _ n (mul_le_of_le_one_right h0 (by norm_num))) (le_max_left _ _))
  | aggressive =>
    simp only [getStrategy, getAggressiveStrategy, aggressiveLevMax, profileLevMaxFloor]
    exact le_max_left _ _
  | swingTrend =>
    simp only [getStrategy, getSwingTrendStrategy, profileLevMaxFloor]
    exact max_le (le_max_right _ _)
      (le_trans (mathCeil_le_int _ n (mul_le_of_le_one_right h0 (by norm_num))) (le_max_left _ _))

lemma levMin_le_levMax (pr : Profile) (L : ℚ) (h0 : 0 ≤ L)
    (hagg : pr = Profile.aggressive → 3 ≤ L ∧ IsIntVal L) :
    (getStrategy pr L).leverageMin ≤ (getStrategy pr L).leverageMax := by
  cases pr with
  | ultraShort =>
    simp only [getStrategy, getUltraShortStrategy, ultraShortLevMin, ultraShortLevMax]
    exact max_ceil_mono _ _ _ _ (by norm_num) (mul_le_mul_of_nonneg_left (by norm_num) h0)
  | conservative =>
    simp only [getStrategy, getConservativeStrategy, conservativeLevMin, conservativeLevMax]
    exact max_ceil_mono _ _ _ _ (by norm_num) (mul_le_mul_of_nonneg_left (by norm_num) h0)
  | balanced =>
    simp only [getStrategy, getBalancedStrategy, balancedLevMin, balancedLevMax]
    exact max_ceil_mono _ _ _ _ (by norm_num) (mul_le_mul_of_nonneg_left (by norm_num) h0)
  | aggressive =>
    obtain ⟨h3, n, rfl⟩ := hagg rfl
    simp only [getStrategy, getAggressiveStrategy, aggressiveLevMin, aggressiveLevMax]
    exact max_le h3
      (mathCeil_le_int _ n (mul_le_of_le_one_right (le_trans (by norm_num) h3) (by norm_num)))
  | swingTrend =>
    simp only [getStrategy, getSwingTrendStrategy]
    exact max_ceil_mono _ _ _ _ (by norm_num) (mul_le_mul_of_nonneg_left (by norm_num) h0)

/-! Claim theorems. -/

/-- C1 counterexample: at systemMaxLeverage = 1 (a value of the claim's set)
the aggressive profile derives leverageMin = 3 and leverageMax = 1, so the
claimed invariant leverageMin ≤ leverageMax fails. -/
theorem c1_counterexample :
    (1 : ℚ) ∈ c1LeverageSet ∧
    (getStrategy Profile.aggressive 1).leverageMin = 3 ∧
    (getStrategy Profile.aggressive 1).leverageMax = 1 ∧
    ¬ ((getStrategy Profile.aggressive 1).leverageMin ≤
        (getStrategy Profile.aggressive 1).leverageMax) := by
  have hmin : (getStrategy Profile.aggressive 1).leverageMin = 3 := by
    simp only [getStrategy, getAggressiveStrategy, aggressiveLevMin]
    exact maxCeil_floor_eval 3 _ 1 (by norm_num) (by norm_num) (by norm_num)
  have hmax : (getStrategy Profile.aggressive 1).leverageMax = 1 := rfl
  refine ⟨by decide, hmin, hmax, ?_⟩
  rw [hmin, hmax]; norm_num

/-- C1 (amended): for every profile and every systemMaxLeverage in
{1, 2, 25, 100, 1000000}, leverageMin ≥ 1 and leverageMax ≤
max(systemMaxLeverage, the profile's floor on leverageMax); and
leverageMin ≤ leverageMax, except for the aggressive profile at
systemMaxLeverage 1 and 2 (where its floor of 3 on leverageMin exceeds
leverageMax = systemMaxLeverage). -/
theorem c1_leverage_bounds_amended :
    ∀ (pr : Profile), ∀ L ∈ c1LeverageSet,
      1 ≤ (getStrategy pr L).leverageMin ∧
      (getStrategy pr L).leverageMax ≤ max L (profileLevMaxFloor pr) ∧
      ((pr = Profile.aggressive → (3 : ℚ) ≤ L) →
        (getStrategy pr L).leverageMin ≤ (getStrategy pr L).leverageMax) := by
  intro pr L hL
  simp only [c1LeverageSet] at hL
  have hLp : (0 : ℚ) ≤ L ∧ IsIntVal L := by
    fin_cases hL
    · exact ⟨by norm_num, ⟨1, by norm_num⟩⟩
    · exact ⟨by norm_num, ⟨2, by norm_num⟩⟩
    · exact ⟨by norm_num, ⟨25, by norm_num⟩⟩
    · exact ⟨by norm_num, ⟨100, by norm_num⟩⟩
    · exact ⟨by norm_num, ⟨1000000, by norm_num⟩⟩
  exact ⟨one_le_levMin pr L, levMax_le_max pr L hLp.1 hLp.2,
    fun h => levMin_le_levMax pr L hLp.1 (fun hpr => ⟨h hpr, hLp.2⟩)⟩

/-- C1 witness: the amended theorem applied at the ultra-short profile and
systemMaxLeverage = 25. -/
theorem c1_leverage_bounds_amended_witness :
    (25 : ℚ) ∈ c1LeverageSet ∧
    (1 ≤ (getStrategy Profile.ultraShort 25).leverageMin ∧
      (getStrategy Profile.ultraShort 25).leverageMax ≤
        max 25 (profileLevMaxFloor Profile.ultraShort) ∧
      ((Profile.ultraShort = Profile.aggressive → (3 : ℚ) ≤ 25) →
        (getStrategy Profile.ultraShort 25).leverageMin ≤
          (getStrategy Profile.ultraShort 25).leverageMax)) :=
  ⟨by decide, c1_leverage_bounds_amended Profile.ultraShort 25 (by decide)⟩

/-- C2 counterexample: at systemMaxLeverage = 1 the ultra-short profile
derives leverageMax = 5 (its floor wins), violating the claimed bound
leverageMax ≤ systemMaxLeverage. -/
theorem c2_counterexample :
    (0 : ℚ) < 1 ∧
    (getUltraShortStrategy 1).leverageMax = 5 ∧
    ¬ ((getUltraShortStrategy 1).leverageMax ≤ 1) := by
  have hmax : (getUltraShortStrategy 1).leverageMax = 5 := by
    simp only [getUltraShortStrategy, ultraShortLevMax]
    exact maxCeil_floor_eval 5 _ 1 (by norm_num) (by norm_num) (by norm_num)
  exact ⟨by norm_num, hmax, by rw [hmax]; norm_num⟩

/-- C2 (amended): for every profile and every positive integer
systemMaxLeverage n, leverageMin equals max(profile floor, ceil(n × low
fraction)); leverageMax equals max(profile floor, ceil(n × high fraction))
for every profile except aggressive, whose leverageMax is n itself; both
bounds are integers; leverageMin ≥ 1 and never falls below the profile's
floor; leverageMin ≤ leverageMax except for the aggressive profile when
n < 3; and leverageMax ≤ max(n, the profile's leverageMax floor) — not
≤ n itself, since each floor may win for small n. -/
theorem c2_derivation_amended :
    ∀ (pr : Profile) (n : ℤ), 1 ≤ n →
      (getStrategy pr (n : ℚ)).leverageMin
          = max (profileLevMinFloor pr) (mathCeil ((n : ℚ) * profileLowFraction pr)) ∧
      (pr ≠ Profile.aggressive →
        (getStrategy pr (n : ℚ)).leverageMax
          = max (profileLevMaxFloor pr) (mathCeil ((n : ℚ) * profileHighFraction pr))) ∧
      (pr = Profile.aggressive → (getStrategy pr (n : ℚ)).leverageMax = (n : ℚ)) ∧
      IsIntVal ((getStrategy pr (n : ℚ)).leverageMin) ∧
      IsIntVal ((getStrategy pr (n : ℚ)).leverageMax) ∧
      1 ≤ (getStrategy pr (n : ℚ)).leverageMin ∧
      profileLevMinFloor pr ≤ (getStrategy pr (n : ℚ)).leverageMin ∧
      ((pr = Profile.aggressive → 3 ≤ n) →
        (getStrategy pr (n : ℚ)).leverageMin ≤ (getStrategy pr (n : ℚ)).leverageMax) ∧
      (getStrategy pr (n : ℚ)).leverageMax ≤ max (n : ℚ) (profileLevMaxFloor pr) := by
  intro pr n hn
  have h0 : (0 : ℚ) ≤ (n : ℚ) := by exact_mod_cast le_trans (by norm_num) hn
  refine ⟨?_, ?_, ?_, levMin_int pr _, levMax_int pr _ ⟨n, rfl⟩, one_le_levMin pr _,
    levMinFloor_le pr _, ?_, levMax_le_max pr _ h0 ⟨n, rfl⟩⟩
  · cases pr <;> rfl
  · cases pr <;> intro h <;> first | rfl | exact absurd rfl h
  · cases pr <;> intro h <;> first | rfl | exact Profile.noConfusion h
  · intro h
    exact levMin_le_levMax pr _ h0 (fun hpr => ⟨by exact_mod_cast h hpr, ⟨n, rfl⟩⟩)

/-- C2 witness: the amended theorem applied at the conservative profile and
systemMaxLeverage = 25. -/
theorem c2_derivation_amended_witness :
    (1 : ℤ) ≤ 25 ∧
    ((getStrategy Profile.conservative ((25 : ℤ) : ℚ)).leverageMin
        = max (profileLevMinFloor Profile.conservative)
            (mathCeil (((25 : ℤ) : ℚ) * profileLowFraction Profile.conservative)) ∧
      (Profile.conservative ≠ Profile.aggressive →
        (getStrategy Profile.conservative ((25 : ℤ) : ℚ)).leverageMax
          = max (profileLevMaxFloor Profile.conservative)
              (mathCeil (((25 : ℤ) : ℚ) * profileHighFraction Profile.conservative))) ∧
      (Profile.conservative = Profile.aggressive →
        (getStrategy Profile.conservative ((25 : ℤ) : ℚ)).leverageMax = ((25 : ℤ) : ℚ)) ∧
      IsIntVal ((getStrategy Profile.conservative ((25 : ℤ) : ℚ)).leverageMin) ∧
      IsIntVal ((getStrategy Profile.conservative ((25 : ℤ) : ℚ)).leverageMax) ∧
      1 ≤ (getStrategy Profile.conservative ((25 : ℤ) : ℚ)).leverageMin ∧
      profileLevMinFloor Profile.conservative ≤
        (getStrategy Profile.conservative ((25 : ℤ) : ℚ)).leverageMin ∧
      ((Profile.conservative = Profile.aggressive → (3 : ℤ) ≤ 25) →
        (getStrategy Profile.conservative ((25 : ℤ) : ℚ)).leverageMin ≤
          (getStrategy Profile.conservative ((25 : ℤ) : ℚ)).leverageMax) ∧
      (getStrategy Profile.conservative ((25 : ℤ) : ℚ)).leverageMax ≤
        max ((25 : ℤ) : ℚ) (profileLevMaxFloor Profile.conservative)) :=
  ⟨by decide, c2_derivation_amended Profile.conservative 25 (by decide)⟩

/-- C3: for every positive systemMaxLeverage the aggressive profile fixes
leverageMax to exactly the input (no scaling, no floor) and sets
enableCodeLevelProtection to true. -/
theorem c3_aggressive_full_ceiling :
    ∀ L : ℚ, 0 < L →
      (getAggressiveStrategy L).leverageMax = L ∧
      (getAggressiveStrategy L).enableCodeLevelProtection = true :=
  fun _ _ => ⟨rfl, rfl⟩

/-- C3 witness: the theorem applied at systemMaxLeverage = 25, matching the
spec's concrete scenario. -/
theorem c3_aggressive_full_ceiling_witness :
    (0 : ℚ) < 25 ∧
    ((getAggressiveStrategy 25).leverageMax = 25 ∧
      (getAggressiveStrategy 25).enableCodeLevelProtection = true) :=
  ⟨by decide, c3_aggressive_full_ceiling 25 (by decide)⟩

/-- C5: deriving the ultra-short profile at systemMaxLeverage = 25 yields
leverageMin = 13, leverageMax = 19, positionSizeMin = 18,
positionSizeMax = 25 and enableCodeLevelProtection = false. -/
theorem c5_ultra_short_at_25 :
    (getUltraShortStrategy 25).leverageMin = 13 ∧
    (getUltraShortStrategy 25).leverageMax = 19 ∧
    (getUltraShortStrategy 25).positionSizeMin = 18 ∧
    (getUltraShortStrategy 25).positionSizeMax = 25 ∧
    (getUltraShortStrategy 25).enableCodeLevelProtection = false := by
  refine ⟨?_, ?_, rfl, rfl, rfl⟩
  · simp only [getUltraShortStrategy, ultraShortLevMin]
    rw [maxCeil_eval 3 _ 13 (by norm_num) (by norm_num) (by norm_num)]; norm_num
  · simp only [getUltraShortStrategy, ultraShortLevMax]
    rw [maxCeil_eval 5 _ 19 (by norm_num) (by norm_num) (by norm_num)]; norm_num

set_option maxRecDepth 8192 in
/-- C4: evaluation at the failing input.  The aggressive profile has
enableCodeLevelProtection = true, yet its rendered instruction text contains
neither the interpolated stop-loss threshold of the supplied record
(formatted as "-6"), nor any mention of the automated monitor (自动监控),
nor any statement about closing positions (平仓) — contradicting the claim
that every protection-enabled profile's prompt carries the literal
thresholds and the monitor-responsibility statement. -/
theorem c4_aggressive_prompt_missing_protection :
    (getAggressiveStrategy 25).enableCodeLevelProtection = true ∧
    strContains (generateAggressivePrompt (getAggressiveStrategy 25) sampleContext)
        (fmtNum ((getAggressiveStrategy 25).stopLoss.low)) = false ∧
    strContains (generateAggressivePrompt (getAggressiveStrategy 25) sampleContext)
        "自动监控" = false ∧
    strContains (generateAggressivePrompt (getAggressiveStrategy 25) sampleContext)
        "平仓" = false := by
  refine ⟨rfl, ?_, ?_, ?_⟩ <;> decide

/-- C6 counterexample: at systemMaxLeverage = 1 the aggressive profile's
recommended leverage tiers are 3倍 / 2倍 / 1倍 — strictly decreasing, so the
claimed monotonic non-decrease across tiers fails (while the claim's other
conjuncts, normal = leverageMin and strong = leverageMax, do hold). -/
theorem c6_counterexample :
    (0 : ℚ) < 1 ∧
    levRecNormal Profile.aggressive 1 = 3 ∧
    levRecGood Profile.aggressive 1 = 2 ∧
    levRecStrong Profile.aggressive 1 = 1 ∧
    (getStrategy Profile.aggressive 1).leverageRecommend.good = "2倍" ∧
    ¬ (levRecNormal Profile.aggressive 1 ≤ levRecGood Profile.aggressive 1) := by
  have hmin : aggressiveLevMin 1 = 3 := by
    unfold aggressiveLevMin
    exact maxCeil_floor_eval 3 _ 1 (by norm_num) (by norm_num) (by norm_num)
  have hgood : aggressiveLevGood 1 = 2 := by
    unfold aggressiveLevGood aggressiveLevMax
    rw [hmin]
    have h2 : mathCeil (((3 : ℚ) + 1) / 2) = ((2 : ℤ) : ℚ) :=
      mathCeil_eval _ 2 (by norm_num) (by norm_num)
    rw [h2]; norm_num
  have hnorm : levRecNormal Profile.aggressive 1 = 3 := by
    show aggressiveLevNormal 1 = 3
    unfold aggressiveLevNormal; exact hmin
  have hgood' : levRecGood Profile.aggressive 1 = 2 := hgood
  refine ⟨by norm_num, hnorm, hgood', rfl, ?_, ?_⟩
  · show fmtNum (aggressiveLevGood 1) ++ "倍" = "2倍"
    rw [hgood]; decide
  · rw [hnorm, hgood']; norm_num

/-- C6 (amended): for every profile and positive systemMaxLeverage, the
recommend strings interpolate the numeric tier values, the normal tier
equals leverageMin and the strong tier equals leverageMax; the tier values
are monotonically non-decreasing across normal → good → strong, except for
the aggressive profile, where this additionally requires leverageMin ≤
leverageMax (it fails for small inputs) and an integer systemMaxLeverage. -/
theorem c6_leverage_recommend_amended :
    ∀ (pr : Profile) (L : ℚ), 0 < L →
      (getStrategy pr L).leverageRecommend.normal = fmtNum (levRecNormal pr L) ++ "倍" ∧
      (getStrategy pr L).leverageRecommend.good = fmtNum (levRecGood pr L) ++ "倍" ∧
      (getStrategy pr L).leverageRecommend.strong = fmtNum (levRecStrong pr L) ++ "倍" ∧
      levRecNormal pr L = (getStrategy pr L).leverageMin ∧
      levRecStrong pr L = (getStrategy pr L).leverageMax ∧
      ((pr = Profile.aggressive →
          (getStrategy pr L).leverageMin ≤ (getStrategy pr L).leverageMax ∧ IsIntVal L) →
        levRecNormal pr L ≤ levRecGood pr L ∧ levRecGood pr L ≤ levRecStrong pr L) := by
  intro pr L hL
  have h0 : (0 : ℚ) ≤ L := le_of_lt hL
  refine ⟨?_, ?_, ?_, ?_, ?_, ?_⟩
  · cases pr <;> rfl
  · cases pr <;> rfl
  · cases pr <;> rfl
  · cases pr <;> rfl
  · cases pr <;> rfl
  · intro hagg
    cases pr with
    | ultraShort =>
      constructor
      · exact max_ceil_mono _ _ _ _ (by norm_num)
          (mul_le_mul_of_nonneg_left (by norm_num) h0)
      · exact max_ceil_mono _ _ _ _ (by norm_num)
          (mul_le_mul_of_nonneg_left (by norm_num) h0)
    | conservative =>
      have hab : conservativeLevMin L ≤ conservativeLevMax L :=
        max_ceil_mono _ _ _ _ (by norm_num) (mul_le_mul_of_nonneg_left (by norm_num) h0)
      have hbint : IsIntVal (conservativeLevMax L) := by
        unfold conservativeLevMax
        exact isIntVal_maxCeil 2 ⟨2, by norm_num⟩ _
      exact avg_ceil_between _ _ hbint hab
    | balanced =>
      have hab : balancedLevMin L ≤ balancedLevMax L :=
        max_ceil_mono _ _ _ _ (by norm_num) (mul_le_mul_of_nonneg_left (by norm_num) h0)
      have hbint : IsIntVal (balancedLevMax L) := by
        unfold balancedLevMax
        exact isIntVal_maxCeil 3 ⟨3, by norm_num⟩ _
      exact avg_ceil_between _ _ hbint hab
    | aggressive =>
      obtain ⟨hab, hint⟩ := hagg rfl
      exact avg_ceil_between _ _ hint hab
    | swingTrend =>
      constructor
      · exact max_ceil_mono _ _ _ _ (by norm_num)
          (mul_le_mul_of_nonneg_left (by norm_num) h0)
      · exact max_ceil_mono _ _ _ _ (by norm_num)
          (mul_le_mul_of_nonneg_left (by norm_num) h0)

/-- C6 witness: the amended theorem applied at the conservative profile and
systemMaxLeverage = 25. -/
theorem c6_leverage_recommend_amended_witness :
    (0 : ℚ) < 25 ∧
    ((getStrategy Profile.conservative 25).leverageRecommend.normal
        = fmtNum (levRecNormal Profile.conservative 25) ++ "倍" ∧
      (getStrategy Profile.conservative 25).leverageRecommend.good
        = fmtNum (levRecGood Profile.conservative 25) ++ "倍" ∧
      (getStrategy Profile.conservative 25).leverageRecommend.strong
        = fmtNum (levRecStrong Profile.conservative 25) ++ "倍" ∧
      levRecNormal Profile.conservative 25 = (getStrategy Profile.conservative 25).leverageMin ∧
      levRecStrong Profile.conservative 25 = (getStrategy Profile.conservative 25).leverageMax ∧
      ((Profile.conservative = Profile.aggressive →
          (getStrategy Profile.conservative 25).leverageMin ≤
            (getStrategy Profile.conservative 25).leverageMax ∧ IsIntVal 25) →
        levRecNormal Profile.conservative 25 ≤ levRecGood Profile.conservative 25 ∧
          levRecGood Profile.conservative 25 ≤ levRecStrong Profile.conservative 25)) :=
  ⟨by decide, c6_leverage_recommend_amended Profile.conservative 25 (by decide)⟩

/-- C7: for every profile (at any systemMaxLeverage), the three
trailing-stop levels are strictly increasing in trigger and in stopAt, and
satisfy stopAt < trigger at every level. -/
theorem c7_trailing_stop_monotone :
    ∀ (pr : Profile) (L : ℚ),
      (getStrategy pr L).trailingStop.level1.trigger
          < (getStrategy pr L).trailingStop.level2.trigger ∧
      (getStrategy pr L).trailingStop.level2.trigger
          < (getStrategy pr L).trailingStop.level3.trigger ∧
      (getStrategy pr L).trailingStop.level1.stopAt
          < (getStrategy pr L).trailingStop.level2.stopAt ∧
      (getStrategy pr L).trailingStop.level2.stopAt
          < (getStrategy pr L).trailingStop.level3.stopAt ∧
      (getStrategy pr L).trailingStop.level1.stopAt
          < (getStrategy pr L).trailingStop.level1.trigger ∧
      (getStrategy pr L).trailingStop.level2.stopAt
          < (getStrategy pr L).trailingStop.level2.trigger ∧
      (getStrategy pr L).trailingStop.level3.stopAt
          < (getStrategy pr L).trailingStop.level3.trigger := by
  intro pr L
  cases pr <;>
    simp only [getStrategy, getUltraShortStrategy, getConservativeStrategy,
      getBalancedStrategy, getAggressiveStrategy, getSwingTrendStrategy] <;>
    norm_num

/-- C8: for any StrategyParams with integer leverage bounds satisfying
leverageMin ≤ leverageMax, the two bucket cut points the swing renderer
computes (33% and 67% of the way up, rounded with the same ceiling rule as
the derivation) stay within [leverageMin, leverageMax]. -/
theorem c8_render_buckets_within_bounds :
    ∀ p : StrategyParams, IsIntVal p.leverageMin → IsIntVal p.leverageMax →
      p.leverageMin ≤ p.leverageMax →
      p.leverageMin ≤ swingStopCutLow p ∧ swingStopCutLow p ≤ p.leverageMax ∧
      p.leverageMin ≤ swingStopCutMid p ∧ swingStopCutMid p ≤ p.leverageMax := by
  intro p _ hmax h
  obtain ⟨b, hb⟩ := hmax
  unfold swingStopCutLow swingStopCutMid
  rw [hb] at h ⊢
  refine ⟨le_trans (by linarith) (le_mathCeil _), mathCeil_le_int _ b (by linarith),
    le_trans (by linarith) (le_mathCeil _), mathCeil_le_int _ b (by linarith)⟩

/-- C8 witness: the theorem applied to the record derived by the swing-trend
profile at systemMaxLeverage = 10 (leverageMin = 2, leverageMax = 5). -/
theorem c8_render_buckets_within_bounds_witness :
    IsIntVal ((getSwingTrendStrategy 10).leverageMin) ∧
    IsIntVal ((getSwingTrendStrategy 10).leverageMax) ∧
    (getSwingTrendStrategy 10).leverageMin ≤ (getSwingTrendStrategy 10).leverageMax ∧
    ((getSwingTrendStrategy 10).leverageMin ≤ swingStopCutLow (getSwingTrendStrategy 10) ∧
      swingStopCutLow (getSwingTrendStrategy 10) ≤ (getSwingTrendStrategy 10).leverageMax ∧
      (getSwingTrendStrategy 10).leverageMin ≤ swingStopCutMid (getSwingTrendStrategy 10) ∧
      swingStopCutMid (getSwingTrendStrategy 10) ≤ (getSwingTrendStrategy 10).leverageMax) := by
  have hmin : (getSwingTrendStrategy 10).leverageMin = 2 := by
    simp only [getSwingTrendStrategy]
    rw [maxCeil_eval 2 _ 2 (by norm_num) (by norm_num) (by norm_num)]; norm_num
  have hmax : (getSwingTrendStrategy 10).leverageMax = 5 := by
    simp only [getSwingTrendStrategy]
    rw [maxCeil_eval 5 _ 5 (by norm_num) (by norm_num) (by norm_num)]; norm_num
  have h1 : IsIntVal ((getSwingTrendStrategy 10).leverageMin) := ⟨2, by rw [hmin]; norm_num⟩
  have h2 : IsIntVal ((getSwingTrendStrategy 10).leverageMax) := ⟨5, by rw [hmax]; norm_num⟩
  have h3 : (getSwingTrendStrategy 10).leverageMin ≤ (getSwingTrendStrategy 10).leverageMax := by
    rw [hmin, hmax]; norm_num
  exact ⟨h1, h2, h3, c8_render_buckets_within_bounds _ h1 h2 h3⟩

/-- C9: looking up a profile identifier outside the registry's fixed set
fails with a ConfigurationError naming exactly that identifier, and every
identifier in the set succeeds with a complete record — so the unknown
identifier is the only error condition.  Failure is an `Except.error`, so no
partial record is produced. -/
theorem c9_registry_lookup :
    (∀ (id : String) (L : ℚ), id ∉ knownProfileIds →
      deriveStrategy id L = Except.error { unknownProfileId := id }) ∧
    (∀ (id : String) (L : ℚ), id ∈ knownProfileIds →
      ∃ p : StrategyParams, deriveStrategy id L = Except.ok p) := by
  constructor
  · intro id L h
    simp only [knownProfileIds, List.mem_cons, List.not_mem_nil, or_false, not_or] at h
    obtain ⟨h1, h2, h3, h4, h5⟩ := h
    simp [deriveStrategy, h1, h2, h3, h4, h5]
  · intro id L h
    simp only [knownProfileIds, List.mem_cons, List.not_mem_nil, or_false] at h
    rcases h with rfl | rfl | rfl | rfl | rfl
    · exact ⟨getUltraShortStrategy L, by simp [deriveStrategy]⟩
    · exact ⟨getConservativeStrategy L, by simp [deriveStrategy]⟩
    · exact ⟨getBalancedStrategy L, by simp [deriveStrategy]⟩
    · exact ⟨getAggressiveStrategy L, by simp [deriveStrategy]⟩
    · exact ⟨getSwingTrendStrategy L, by simp [deriveStrategy]⟩

/-- C9 witness: the theorem applied at the spec's concrete scenario
deriveStrategy("nonexistent", 25). -/
theorem c9_registry_lookup_witness :
    deriveStrategy "nonexistent" 25 = Except.error { unknownProfileId := "nonexistent" } :=
  c9_registry_lookup.1 "nonexistent" 25 (by decide)

/-- C10: no renderer's output depends on the context argument, and the four
fixed renderers (ultra-short, conservative, balanced, aggressive) are also
independent of the params record. -/
theorem c10_prompts_ignore_context :
    (∀ (p : StrategyParams) (c1 c2 : StrategyPromptContext),
        generateUltraShortPrompt p c1 = generateUltraShortPrompt p c2) ∧
    (∀ (p : StrategyParams) (c1 c2 : StrategyPromptContext),
        generateConservativePrompt p c1 = generateConservativePrompt p c2) ∧
    (∀ (p : StrategyParams) (c1 c2 : StrategyPromptContext),
        generateBalancedPrompt p c1 = generateBalancedPrompt p c2) ∧
    (∀ (p : StrategyParams) (c1 c2 : StrategyPromptContext),
        generateAggressivePrompt p c1 = generateAggressivePrompt p c2) ∧
    (∀ (p : StrategyParams) (c1 c2 : StrategyPromptContext),
        generateSwingTrendPrompt p c1 = generateSwingTrendPrompt p c2) ∧
    (∀ (p1 p2 : StrategyParams) (c1 c2 : StrategyPromptContext),
        generateUltraShortPrompt p1 c1 = generateUltraShortPrompt p2 c2) ∧
    (∀ (p1 p2 : StrategyParams) (c1 c2 : StrategyPromptContext),
        generateConservativePrompt p1 c1 = generateConservativePrompt p2 c2) ∧
    (∀ (p1 p2 : StrategyParams) (c1 c2 : StrategyPromptContext),
        generateBalancedPrompt p1 c1 = generateBalancedPrompt p2 c2) ∧
    (∀ (p1 p2 : StrategyParams) (c1 c2 : StrategyPromptContext),
        generateAggressivePrompt p1 c1 = generateAggressivePrompt p2 c2) :=
  ⟨fun _ _ _ => rfl, fun _ _ _ => rfl, fun _ _ _ => rfl, fun _ _ _ => rfl, fun _ _ _ => rfl,
    fun _ _ _ _ => rfl, fun _ _ _ _ => rfl, fun _ _ _ _ => rfl, fun _ _ _ _ => rfl⟩

end Nof1
